import Mathlib

/-!
Verification of the his-auto-upgrade module upgrade service.

The repository contains two concatenated service implementations in
src/backend/src/upgrade/upgrade.service.ts (a first one built on fs-extra,
called V1 below, and a second one built on node:fs primitives, called V2
below) plus a third simplified variant embedded in the document
src/unnamed/part_003 (called P3 below).  V1 and P3 share the whole pipeline
body; they differ only in the catch handlers of upgradeModule and
getModulesStatus (V1 rethrows, P3 converts to a result value / per-module
error entry).

Filesystem and process effects are shallowly embedded: the filesystem is a
list of existing paths, every primitive records an FsOp in a trace, and an
Env record supplies the outcome of each external operation (command
execution, JSON reads, copy or mkdir failures, the current timestamp).
-/

namespace HisAutoUpgrade

inductive ModuleType where
  | frontend
  | backend
  | microfrontend
deriving DecidableEq, Repr

/-- ModuleConfig from upgrade.service.ts. -/
structure ModuleConfig where
  name : String
  repo : String
  type : ModuleType
  deployPath : String
  buildCommand : String
  branch : Option String := none
deriving DecidableEq, Repr

/-- UpgradeResult from upgrade.service.ts. -/
structure UpgradeResult where
  success : Bool
  module : String
  message : String
  timestamp : String
  version : Option String := none
deriving DecidableEq, Repr

/-- ModuleStatus entries pushed by getModulesStatus.  The error field is
only populated by the P3 variant's catch handler; the V1 entries leave it
absent (none). -/
structure ModuleStatus where
  name : String
  type : ModuleType
  currentVersion : String
  latestVersion : String
  deployPath : String
  status : String
  lastUpdated : Option String := none
  error : Option String := none
deriving DecidableEq, Repr

/-- One recorded filesystem / process effect. -/
inductive FsOp where
  | ensureDir (p : String)
  | mkdir (p : String)
  | exec (cmd : String)
  | readJson (p : String)
  | copy (src dst : String)
  | emptyDir (p : String)
  | rm (p : String)
  | stat (p : String)
deriving DecidableEq, Repr

/-- Mutable world state: the set of existing paths and the trace of
performed operations. -/
structure St where
  fs : List String
  trace : List FsOp
deriving DecidableEq, Repr

/-- Outcome of an effectful step: a value or a thrown error, together with
the state at that point (effects performed before a throw persist). -/
inductive Res (α : Type) where
  | ok (a : α) (st : St)
  | err (e : String) (st : St)
deriving DecidableEq, Repr

def Res.st {α : Type} : Res α → St
  | .ok _ st => st
  | .err _ st => st

def Res.val? {α : Type} : Res α → Option α
  | .ok a _ => some a
  | .err _ _ => none

def Res.out {α : Type} : Res α → Except String α
  | .ok a _ => .ok a
  | .err e _ => .error e

def Res.isOk {α : Type} : Res α → Bool
  | .ok _ _ => true
  | .err _ _ => false

def Res.isErr {α : Type} : Res α → Bool
  | .ok _ _ => false
  | .err _ _ => true

/-- Sequential composition: mirrors awaiting one step and continuing with
the next, a thrown error short-circuiting. -/
def Res.andThen {α β : Type} (r : Res α) (f : α → St → Res β) : Res β :=
  match r with
  | .ok a st => f a st
  | .err e st => .err e st

/-- Oracles for the external world: command execution results, manifest
reads, failure injection for each filesystem primitive, stat results and
the current timestamp. -/
structure Env where
  exec : String → Except String String
  readJson : String → Except String (Option String)
  ensureDirFails : String → Option String
  mkdirFails : String → Option String
  copyFails : String → String → Option String
  emptyDirFails : String → Option String
  rmFails : String → Option String
  statMtime : String → Option String
  now : String

def pathJoin (a b : String) : String := a ++ "/" ++ b

/-- q lies strictly below directory dir. -/
def isUnder (dir q : String) : Bool := (dir ++ "/").isPrefixOf q

def record (op : FsOp) (st : St) : St := { st with trace := st.trace ++ [op] }

def pathExistsB (st : St) (p : String) : Bool := st.fs.contains p

/-- fs.ensureDir / recursive mkdir. -/
def ensureDirE (env : Env) (p : String) (st : St) : Res Unit :=
  let st := record (.ensureDir p) st
  match env.ensureDirFails p with
  | some e => .err e st
  | none => .ok () { st with fs := st.fs.insert p }

/-- fs.mkdir with recursive true. -/
def mkdirE (env : Env) (p : String) (st : St) : Res Unit :=
  let st := record (.mkdir p) st
  match env.mkdirFails p with
  | some e => .err e st
  | none => .ok () { st with fs := st.fs.insert p }

/-- execAsync of a shell command. -/
def execE (env : Env) (cmd : String) (st : St) : Res String :=
  let st := record (.exec cmd) st
  match env.exec cmd with
  | .ok out => .ok out st
  | .error e => .err e st

/-- fs.readJson / readFile plus JSON.parse of a package.json, yielding the
optional version field. -/
def readJsonE (env : Env) (p : String) (st : St) : Res (Option String) :=
  let st := record (.readJson p) st
  match env.readJson p with
  | .ok v => .ok v st
  | .error e => .err e st

/-- fs.copy / fs.cp with recursive true. -/
def copyE (env : Env) (src dst : String) (st : St) : Res Unit :=
  let st := record (.copy src dst) st
  match env.copyFails src dst with
  | some e => .err e st
  | none => .ok () { st with fs := st.fs.insert dst }

/-- fs.emptyDir: the directory survives, its descendants are removed. -/
def emptyDirE (env : Env) (p : String) (st : St) : Res Unit :=
  let st := record (.emptyDir p) st
  match env.emptyDirFails p with
  | some e => .err e st
  | none =>
    .ok () { st with fs := (st.fs.filter (fun q => !(isUnder p q))).insert p }

/-- fs.remove / fs.rm with recursive and force: the path and everything
below it disappear. -/
def rmE (env : Env) (p : String) (st : St) : Res Unit :=
  let st := record (.rm p) st
  match env.rmFails p with
  | some e => .err e st
  | none => .ok () { st with fs := st.fs.filter (fun q => !(q == p || isUnder p q)) }

/-- fs.stat, mtime extraction; any stat failure was already mapped to null
by the try/catch in getLastModifiedTime, so the oracle returns an Option
directly. -/
def getLastModifiedTime (env : Env) (dir : String) (st : St) : Res (Option String) :=
  let st := record (.stat dir) st
  .ok (env.statMtime dir) st

/-- Models now.replace of each colon by a dash (the timestamp directory
name of backupCurrent); kernel-friendly charwise form of a single-character
String.replace. -/
def replaceColons (s : String) : String :=
  String.mk (s.toList.map (fun c => if c = ':' then '-' else c))

/-- path.dirname: everything before the final slash. -/
def dirname (p : String) : String :=
  String.mk (List.intercalate ['/'] ((p.toList.splitOn '/').dropLast))

/-- Kernel-friendly form of String.trim, matching the trim calls on command
output. -/
def trimS (s : String) : String :=
  String.mk (((s.toList.dropWhile Char.isWhitespace).reverse.dropWhile Char.isWhitespace).reverse)

/-- Kernel-friendly substring from 0 of length n, matching substring calls
on command output. -/
def takeS (n : Nat) (s : String) : String := String.mk (s.toList.take n)

/-- First occurrence search: drops everything up to and including the first
occurrence of pat, none when pat does not occur.  Models the regex search
for refs/tags/ inside getGitLatestVersion. -/
def splitFirstAfter (pat : List Char) : List Char → Option (List Char)
  | [] => none
  | c :: cs =>
    if pat.isPrefixOf (c :: cs) then some ((c :: cs).drop pat.length)
    else splitFirstAfter pat cs

/-- stdout.match of the pattern refs slash tags slash dot-plus: the capture
runs from after the marker to the end of the line and must be nonempty. -/
def matchTagRef (stdout : String) : Option String :=
  match splitFirstAfter ("refs/tags/".toList) stdout.toList with
  | none => none
  | some rest =>
    let captured := rest.takeWhile (fun c => c ≠ '\n')
    if captured.isEmpty then none else some (String.mk captured)

/-- tag.replace removing a trailing peeled-ref marker (caret, open brace,
close brace). -/
def stripPeeled (s : String) : String :=
  let cs := s.toList
  if ['^', '\x7b', '\x7d'].isSuffixOf cs then String.mk (cs.take (cs.length - 3)) else s

/-- pkg.version or the literal unknown: an absent or empty (falsy) version
field degrades to unknown. -/
def orUnknown (v : Option String) : String :=
  match v with
  | some s => if s == "" then "unknown" else s
  | none => "unknown"

/-- gitCloneOrPull, identical in V1, V2 and P3 (V2 checks the git directory
with existsSync instead of fs.pathExists; both are existence tests). -/
def gitCloneOrPull (env : Env) (m : ModuleConfig) (targetDir : String) (st : St) : Res Unit :=
  let repo := m.repo
  let repoUrl := s!"https://github.com/{repo}.git"
  let branch := m.branch.getD "main"
  let gitDir := pathJoin targetDir ".git"
  if pathExistsB st gitDir then
    (execE env s!"cd {targetDir} && git fetch origin && git checkout {branch} && git pull origin {branch}" st).andThen
      fun _ st => .ok () st
  else
    (execE env s!"git clone --branch {branch} {repoUrl} {targetDir}" st).andThen
      fun _ st => .ok () st

/-- npmInstall of the fs-extra service (V1) and of P3: skip when no
package.json, otherwise run npm ci and propagate its failure. -/
def npmInstallV1 (env : Env) (dir : String) (st : St) : Res Unit :=
  let packageJson := pathJoin dir "package.json"
  if pathExistsB st packageJson then
    (execE env s!"cd {dir} && npm ci --no-audit --no-fund" st).andThen fun _ st => .ok () st
  else .ok () st

/-- npmInstall of the node:fs service (V2): fs.access and the npm ci call
share one try/catch, so an install failure is swallowed exactly like an
absent package.json. -/
def npmInstallV2 (env : Env) (dir : String) (st : St) : Res Unit :=
  let packageJson := pathJoin dir "package.json"
  if pathExistsB st packageJson then
    match execE env s!"cd {dir} && npm ci --no-audit --no-fund" st with
    | .ok _ st => .ok () st
    | .err _ st => .ok () st
  else .ok () st

/-- buildProject, identical in all variants. -/
def buildProject (env : Env) (dir buildCommand : String) (st : St) : Res Unit :=
  (execE env s!"cd {dir} && {buildCommand}" st).andThen fun _ st => .ok () st

/-- backupCurrent of V1 and P3: no-op when the deploy path does not exist,
otherwise a recursive copy whose failure propagates. -/
def backupCurrentV1 (env : Env) (deployPath moduleName : String) (st : St) : Res Unit :=
  if pathExistsB st deployPath then
    let stamp := replaceColons env.now
    let backupDir := pathJoin (pathJoin "/var/www/backups" moduleName) stamp
    copyE env deployPath backupDir st
  else .ok () st

/-- backupCurrent of V2: access, mkdir of the parent and the recursive copy
share one try/catch, so mkdir and copy failures are swallowed. -/
def backupCurrentV2 (env : Env) (deployPath moduleName : String) (st : St) : Res Unit :=
  if pathExistsB st deployPath then
    let stamp := replaceColons env.now
    let backupDir := pathJoin (pathJoin "/var/www/backups" moduleName) stamp
    match mkdirE env (dirname backupDir) st with
    | .err _ st => .ok () st
    | .ok _ st =>
      match copyE env deployPath backupDir st with
      | .err _ st => .ok () st
      | .ok _ st => .ok () st
  else .ok () st

def frontendCandidates : List String := ["dist", "build", "out", "public"]

/-- The for-loop over candidate output directories: buildOutput keeps its
initial empty-string value when no candidate exists. -/
def firstExistingDir (st : St) (sourceDir : String) : List String → String
  | [] => ""
  | d :: rest =>
    let testPath := pathJoin sourceDir d
    if pathExistsB st testPath then testPath else firstExistingDir st sourceDir rest

/-- Build-output discovery of deployBuild, shared by every variant. -/
def findBuildOutput (st : St) (sourceDir : String) (type : ModuleType) : String :=
  match type with
  | .frontend | .microfrontend => firstExistingDir st sourceDir frontendCandidates
  | .backend =>
    let distPath := pathJoin sourceDir "dist"
    if pathExistsB st distPath then distPath else sourceDir

/-- Clear-and-copy tail of deployBuild in V1 and P3: emptyDir an existing
target or ensureDir a fresh one, then copy the build output in. -/
def deployCopyV1 (env : Env) (buildOutput targetDir : String) (st : St) : Res Unit :=
  (if pathExistsB st targetDir then emptyDirE env targetDir st
   else ensureDirE env targetDir st).andThen fun _ st =>
  copyE env buildOutput targetDir st

/-- deployBuild of V1 and P3. -/
def deployBuildV1 (env : Env) (sourceDir targetDir : String) (type : ModuleType) (st : St) : Res Unit :=
  let buildOutput := findBuildOutput st sourceDir type
  if buildOutput == "" then .err "未找到构建输出目录" st
  else deployCopyV1 env buildOutput targetDir st

/-- Clear-and-copy tail of deployBuild in V2: access plus recursive rm in a
try/catch of their own, then mkdir and cp whose failures propagate. -/
def deployCopyV2 (env : Env) (buildOutput targetDir : String) (st : St) : Res Unit :=
  let st1 :=
    if pathExistsB st targetDir then
      match rmE env targetDir st with
      | .ok _ st' => st'
      | .err _ st' => st'
    else st
  (mkdirE env targetDir st1).andThen fun _ st =>
  copyE env buildOutput targetDir st

/-- deployBuild of V2. -/
def deployBuildV2 (env : Env) (sourceDir targetDir : String) (type : ModuleType) (st : St) : Res Unit :=
  let buildOutput := findBuildOutput st sourceDir type
  if buildOutput == "" then .err "未找到构建输出目录" st
  else deployCopyV2 env buildOutput targetDir st

/-- The compound shell fallback of getVersion: git describe of the nearest
tag, or on failure the short id of the current revision, in one command. -/
def gitVersionCmd (dir : String) : String :=
  s!"cd {dir} && git describe --tags --abbrev=0 || git rev-parse --short HEAD"

/-- getVersion of V1 and P3: manifest version when a package.json exists
(any read failure caught to unknown), otherwise the trimmed output of the
git query, unknown when that fails too; total, never throws. -/
def getVersionV1 (env : Env) (dir : String) (st : St) : Res String :=
  let packageJson := pathJoin dir "package.json"
  if pathExistsB st packageJson then
    match readJsonE env packageJson st with
    | .ok v st => .ok (orUnknown v) st
    | .err _ st => .ok "unknown" st
  else
    match execE env (gitVersionCmd dir) st with
    | .ok out st => .ok (trimS out) st
    | .err _ st => .ok "unknown" st

/-- The git fallback of getVersion in V2, in its own try/catch. -/
def gitVersionFallback (env : Env) (dir : String) (st : St) : Res String :=
  match execE env (gitVersionCmd dir) st with
  | .ok out st => .ok (trimS out) st
  | .err _ st => .ok "unknown" st

/-- getVersion of V2: a manifest read failure falls through to the git
query (unlike V1, which degrades straight to unknown); total. -/
def getVersionV2 (env : Env) (dir : String) (st : St) : Res String :=
  let packageJson := pathJoin dir "package.json"
  if pathExistsB st packageJson then
    match readJsonE env packageJson st with
    | .ok v st => .ok (orUnknown v) st
    | .err _ st => gitVersionFallback env dir st
  else gitVersionFallback env dir st

/-- getCurrentVersion of V1 and P3: no try/catch, a manifest read failure
propagates to the caller. -/
def getCurrentVersionV1 (env : Env) (deployPath : String) (st : St) : Res String :=
  let packageJson := pathJoin deployPath "package.json"
  if pathExistsB st packageJson then
    match readJsonE env packageJson st with
    | .ok v st => .ok (orUnknown v) st
    | .err e st => .err e st
  else .ok "unknown" st

/-- getCurrentVersion of V2: fully wrapped in try/catch, total. -/
def getCurrentVersionV2 (env : Env) (deployPath : String) (st : St) : Res String :=
  let packageJson := pathJoin deployPath "package.json"
  if pathExistsB st packageJson then
    match readJsonE env packageJson st with
    | .ok v st => .ok (orUnknown v) st
    | .err _ st => .ok "unknown" st
  else .ok "unknown" st

/-- getGitLatestVersion, identical in every variant: highest remote tag, or
the first seven characters of the remote head id, unknown on any failure;
total. -/
def getGitLatestVersion (env : Env) (repo : String) (st : St) : Res String :=
  match execE env s!"git ls-remote --tags --sort=\"v:refname\" https://github.com/{repo}.git | tail -n1" st with
  | .err _ st => .ok "unknown" st
  | .ok stdout st =>
    match (if stdout == "" then none else matchTagRef stdout) with
    | some tag => .ok (stripPeeled tag) st
    | none =>
      match execE env s!"git ls-remote https://github.com/{repo}.git HEAD | cut -f1" st with
      | .ok commitStdout st =>
        let short := takeS 7 (trimS commitStdout)
        .ok (if short == "" then "unknown" else short) st
      | .err _ st => .ok "unknown" st

/-- cleanupTemp: recursive removal of the workspace, any removal failure
downgraded to a logged warning; identical in every variant. -/
def cleanupTemp (env : Env) (tempDir : String) (st : St) : St :=
  match rmE env tempDir st with
  | .ok _ st' => st'
  | .err _ st' => st'

/-- The unconfigured-module result returned before the pipeline starts. -/
def unconfiguredResult (env : Env) (name : String) : UpgradeResult :=
  { success := false, module := name, message := s!"模块 {name} 未配置",
    timestamp := env.now, version := none }

/-- The try-block of upgradeModule in V1 and P3 (their bodies coincide):
ensure the workspace, clone or pull, install, build, backup, deploy,
resolve the version, and produce the success record. -/
def pipelineBody (env : Env) (m : ModuleConfig) (tempDir : String) (st : St) : Res UpgradeResult :=
  (ensureDirE env tempDir st).andThen fun _ st =>
  (gitCloneOrPull env m tempDir st).andThen fun _ st =>
  (npmInstallV1 env tempDir st).andThen fun _ st =>
  (buildProject env tempDir m.buildCommand st).andThen fun _ st =>
  (backupCurrentV1 env m.deployPath m.name st).andThen fun _ st =>
  (deployBuildV1 env tempDir m.deployPath m.type st).andThen fun _ st =>
  (getVersionV1 env tempDir st).andThen fun version st =>
  .ok { success := true, module := m.name, message := s!"升级成功，版本: {version}",
        timestamp := env.now, version := some version } st

/-- The try-block of upgradeModule in V2 (node:fs primitives). -/
def pipelineBodyV2 (env : Env) (m : ModuleConfig) (tempDir : String) (st : St) : Res UpgradeResult :=
  (mkdirE env tempDir st).andThen fun _ st =>
  (gitCloneOrPull env m tempDir st).andThen fun _ st =>
  (npmInstallV2 env tempDir st).andThen fun _ st =>
  (buildProject env tempDir m.buildCommand st).andThen fun _ st =>
  (backupCurrentV2 env m.deployPath m.name st).andThen fun _ st =>
  (deployBuildV2 env tempDir m.deployPath m.type st).andThen fun _ st =>
  (getVersionV2 env tempDir st).andThen fun version st =>
  .ok { success := true, module := m.name, message := s!"升级成功，版本: {version}",
        timestamp := env.now, version := some version } st

/-- upgradeModule of V1: unknown modules return an unconfigured result, a
pipeline error is rethrown after the finally-style cleanup runs. -/
def upgradeModuleV1 (env : Env) (mods : List ModuleConfig) (moduleName : String) (st : St) : Res UpgradeResult :=
  match mods.find? (fun m => m.name == moduleName) with
  | none => .ok (unconfiguredResult env moduleName) st
  | some m =>
    let tempDir := pathJoin "/tmp/upgrade" moduleName
    match pipelineBody env m tempDir st with
    | .ok r st => .ok r (cleanupTemp env tempDir st)
    | .err e st => .err e (cleanupTemp env tempDir st)

/-- upgradeModule of V2: same control flow as V1 over the V2 steps. -/
def upgradeModuleV2 (env : Env) (mods : List ModuleConfig) (moduleName : String) (st : St) : Res UpgradeResult :=
  match mods.find? (fun m => m.name == moduleName) with
  | none => .ok (unconfiguredResult env moduleName) st
  | some m =>
    let tempDir := pathJoin "/tmp/upgrade" moduleName
    match pipelineBodyV2 env m tempDir st with
    | .ok r st => .ok r (cleanupTemp env tempDir st)
    | .err e st => .err e (cleanupTemp env tempDir st)

/-- upgradeModule of P3: the catch converts a pipeline error into a
failure record, so the call always yields a result value. -/
def upgradeModuleP3 (env : Env) (mods : List ModuleConfig) (moduleName : String) (st : St) : UpgradeResult × St :=
  match mods.find? (fun m => m.name == moduleName) with
  | none => (unconfiguredResult env moduleName, st)
  | some m =>
    let tempDir := pathJoin "/tmp/upgrade" moduleName
    match pipelineBody env m tempDir st with
    | .ok r st => (r, cleanupTemp env tempDir st)
    | .err e st =>
      ({ success := false, module := moduleName, message := s!"升级失败: {e}",
         timestamp := env.now, version := none }, cleanupTemp env tempDir st)

/-- Module selection of batchUpgrade: the configured list filtered by the
requested names, or the whole list when no names are given. -/
def selectModules (mods : List ModuleConfig) (moduleNames : Option (List String)) : List ModuleConfig :=
  match moduleNames with
  | some names => mods.filter (fun m => names.contains m.name)
  | none => mods

/-- The awaiting for-loop of batchUpgrade in V1: a thrown upgrade error
escapes the loop. -/
def batchRunV1 (env : Env) (mods : List ModuleConfig) : List ModuleConfig → St → Res (List UpgradeResult)
  | [], st => .ok [] st
  | m :: rest, st =>
    match upgradeModuleV1 env mods m.name st with
    | .err e st => .err e st
    | .ok r st =>
      match batchRunV1 env mods rest st with
      | .ok rs st => .ok (r :: rs) st
      | .err e st => .err e st

/-- batchUpgrade of V1. -/
def batchUpgradeV1 (env : Env) (mods : List ModuleConfig) (moduleNames : Option (List String)) (st : St) : Res (List UpgradeResult) :=
  batchRunV1 env mods (selectModules mods moduleNames) st

/-- The for-loop of batchUpgrade in P3: every iteration yields a result. -/
def batchRunP3 (env : Env) (mods : List ModuleConfig) : List ModuleConfig → St → List UpgradeResult × St
  | [], st => ([], st)
  | m :: rest, st =>
    let p := upgradeModuleP3 env mods m.name st
    let q := batchRunP3 env mods rest p.2
    (p.1 :: q.1, q.2)

/-- batchUpgrade of P3. -/
def batchUpgradeP3 (env : Env) (mods : List ModuleConfig) (moduleNames : Option (List String)) (st : St) : List UpgradeResult × St :=
  batchRunP3 env mods (selectModules mods moduleNames) st

/-- The try-block of one getModulesStatus iteration in V1 and P3: deployed
version (which may throw), latest remote version, then the pushed entry. -/
def statusEntry (env : Env) (m : ModuleConfig) (st : St) : Res ModuleStatus :=
  (getCurrentVersionV1 env m.deployPath st).andThen fun currentVersion st =>
  (getGitLatestVersion env m.repo st).andThen fun latestVersion st =>
  (getLastModifiedTime env m.deployPath st).andThen fun lastUpdated st =>
  .ok { name := m.name, type := m.type, currentVersion := currentVersion,
        latestVersion := latestVersion, deployPath := m.deployPath,
        status := if currentVersion == latestVersion then "up-to-date" else "outdated",
        lastUpdated := lastUpdated, error := none } st

/-- getModulesStatus of V1: the catch rethrows, so one module's resolution
failure aborts the whole status call. -/
def getModulesStatusV1 (env : Env) : List ModuleConfig → St → Res (List ModuleStatus)
  | [], st => .ok [] st
  | m :: rest, st =>
    match statusEntry env m st with
    | .err e st => .err e st
    | .ok entry st =>
      match getModulesStatusV1 env rest st with
      | .ok entries st => .ok (entry :: entries) st
      | .err e st => .err e st

/-- The per-module error entry pushed by the catch of getModulesStatus in
P3. -/
def errorEntry (m : ModuleConfig) (e : String) : ModuleStatus :=
  { name := m.name, type := m.type, currentVersion := "unknown",
    latestVersion := "unknown", deployPath := m.deployPath, status := "error",
    lastUpdated := none, error := some e }

/-- getModulesStatus of P3: the catch degrades a module's failure to a
per-module error entry and the loop continues. -/
def getModulesStatusP3 (env : Env) : List ModuleConfig → St → List ModuleStatus × St
  | [], st => ([], st)
  | m :: rest, st =>
    match statusEntry env m st with
    | .ok entry st1 =>
      let q := getModulesStatusP3 env rest st1
      (entry :: q.1, q.2)
    | .err e st1 =>
      let q := getModulesStatusP3 env rest st1
      (errorEntry m e :: q.1, q.2)

/-! Concrete fixtures used by counterexamples and witnesses. -/

/-- A benign environment: every command succeeds with empty output, no
filesystem primitive fails, manifest reads fail (no manifest content),
timestamp T. -/
def baseEnv : Env :=
  { exec := fun _ => .ok "", readJson := fun _ => .error "unused",
    ensureDirFails := fun _ => none, mkdirFails := fun _ => none,
    copyFails := fun _ _ => none, emptyDirFails := fun _ => none,
    rmFails := fun _ => none, statMtime := fun _ => none, now := "T" }

/-- The empty world. -/
def st0 : St := { fs := [], trace := [] }

def mA : ModuleConfig :=
  { name := "a", repo := "o/a", type := .backend, deployPath := "/srv/a",
    buildCommand := "npm run build" }

def mB : ModuleConfig :=
  { name := "b", repo := "o/b", type := .backend, deployPath := "/srv/b",
    buildCommand := "npm run build" }

def mC : ModuleConfig :=
  { name := "c", repo := "o/c", type := .backend, deployPath := "/srv/c",
    buildCommand := "npm run build" }

def mods3 : List ModuleConfig := [mA, mB, mC]

/-- The clone command issued for one of the fixture modules. -/
def cloneCmd (name : String) : String :=
  s!"git clone --branch main https://github.com/o/{name}.git /tmp/upgrade/{name}"

/-- An environment in which exactly the clone of module b fails (its remote
is unreachable); every other command succeeds. -/
def envFailB : Env :=
  { baseEnv with
    exec := fun cmd => if cmd = cloneCmd "b" then .error "unreachable" else .ok "v1\n" }

/-- An environment in which exactly the build command of module a fails;
everything else succeeds. -/
def envFailBuildA : Env :=
  { baseEnv with
    exec := fun cmd =>
      if cmd = "cd /tmp/upgrade/a && npm run build" then .error "build exploded" else .ok "" }

/-- An environment in which every manifest read fails with a parse error. -/
def envC3 : Env :=
  { baseEnv with readJson := fun _ => .error "EACCES: parse failed" }

/-- A world in which the deployed manifest of module a exists. -/
def stC3 : St := { fs := ["/srv/a/package.json"], trace := [] }

/-- The state at which the status try-block of module a throws: the
manifest read has been recorded. -/
def stC3x : St :=
  { fs := ["/srv/a/package.json"], trace := [FsOp.readJson "/srv/a/package.json"] }

/-- An environment in which every recursive copy fails (full disk). -/
def envC4 : Env :=
  { baseEnv with copyFails := fun _ _ => some "ENOSPC: disk full" }

/-- A world in which the deploy path of module a exists. -/
def stC4 : St := { fs := ["/srv/a"], trace := [] }

/-- An environment in which every command fails (npm ci exits non-zero). -/
def envC5 : Env :=
  { baseEnv with exec := fun _ => .error "npm ci exited 1" }

/-- A world in which the workspace manifest exists at /w/package.json. -/
def stC5 : St := { fs := ["/w/package.json"], trace := [] }

/-- An environment whose git query prints a twelve-character revision id
(legitimate when git needs more than the default seven characters). -/
def envC9 : Env :=
  { baseEnv with exec := fun _ => .ok "abcdefgh1234\n" }

/-! Helper lemmas. -/

theorem andThen_ok {α β : Type} {x : Res α} {f : α → St → Res β} {b : β} {st' : St}
    (h : x.andThen f = .ok b st') : ∃ a st₁, x = .ok a st₁ ∧ f a st₁ = .ok b st' := by
  cases x with
  | ok a st₁ => exact ⟨a, st₁, rfl, h⟩
  | err e st₁ => simp [Res.andThen] at h

/-- Every successful exit of the shared pipeline body carries the success
record built from some resolved version. -/
theorem pipelineBody_ok_shape {env : Env} {m : ModuleConfig} {tempDir : String} {st : St}
    {r : UpgradeResult} {st' : St} (h : pipelineBody env m tempDir st = .ok r st') :
    ∃ v, r = { success := true, module := m.name, message := s!"升级成功，版本: {v}",
               timestamp := env.now, version := some v } := by
  unfold pipelineBody at h
  obtain ⟨-, st1, -, h⟩ := andThen_ok h
  obtain ⟨-, st2, -, h⟩ := andThen_ok h
  obtain ⟨-, st3, -, h⟩ := andThen_ok h
  obtain ⟨-, st4, -, h⟩ := andThen_ok h
  obtain ⟨-, st5, -, h⟩ := andThen_ok h
  obtain ⟨-, st6, -, h⟩ := andThen_ok h
  obtain ⟨v, st7, -, h⟩ := andThen_ok h
  simp only [Res.ok.injEq] at h
  exact ⟨v, h.1.symm⟩

/-- The result of the P3 upgrade always names the requested module. -/
theorem upgradeModuleP3_module (env : Env) (mods : List ModuleConfig) (name : String) (st : St) :
    ((upgradeModuleP3 env mods name st).1).module = name := by
  unfold upgradeModuleP3
  cases hf : mods.find? (fun m => m.name == name) with
  | none => simp [unconfiguredResult]
  | some m =>
    have hm : m.name = name := by
      have hb := List.find?_some hf
      simpa using hb
    cases hp : pipelineBody env m (pathJoin "/tmp/upgrade" name) st with
    | ok r st' =>
      obtain ⟨v, hv⟩ := pipelineBody_ok_shape hp
      simp [hp, hv, hm]
    | err e st' => simp [hp]

theorem batchRunP3_map (env : Env) (mods : List ModuleConfig) (l : List ModuleConfig) :
    ∀ st : St, ((batchRunP3 env mods l st).1).map (fun r => r.module) = l.map (fun m => m.name) := by
  induction l with
  | nil => intro st; simp [batchRunP3]
  | cons m rest ih => intro st; simp [batchRunP3, upgradeModuleP3_module, ih]

theorem statusEntry_ok_name {env : Env} {m : ModuleConfig} {st : St} {entry : ModuleStatus}
    {st' : St} (h : statusEntry env m st = .ok entry st') : entry.name = m.name := by
  unfold statusEntry at h
  obtain ⟨cv, s1, -, h⟩ := andThen_ok h
  obtain ⟨lv, s2, -, h⟩ := andThen_ok h
  obtain ⟨lu, s3, -, h⟩ := andThen_ok h
  simp only [Res.ok.injEq] at h
  rw [← h.1]

theorem getModulesStatusP3_map (env : Env) (l : List ModuleConfig) :
    ∀ st : St, ((getModulesStatusP3 env l st).1).map (fun s => s.name) = l.map (fun m => m.name) := by
  induction l with
  | nil => intro st; simp [getModulesStatusP3]
  | cons m rest ih =>
    intro st
    unfold getModulesStatusP3
    cases h : statusEntry env m st with
    | ok entry st1 => simp [statusEntry_ok_name h, ih]
    | err e st1 => simp [errorEntry, ih]

/-- The cleanup always records the removal attempt. -/
theorem rm_mem_cleanupTemp (env : Env) (d : String) (st : St) :
    FsOp.rm d ∈ (cleanupTemp env d st).trace := by
  unfold cleanupTemp rmE record
  cases h : env.rmFails d <;> simp

/-- When the removal succeeds, neither the workspace nor anything below it
survives in the filesystem. -/
theorem cleanupTemp_fs (env : Env) (d : String) (st : St) (h : env.rmFails d = none) :
    ∀ p ∈ (cleanupTemp env d st).fs, p ≠ d ∧ isUnder d p = false := by
  unfold cleanupTemp rmE record
  simp only [h]
  intro p hp
  simp only [List.mem_filter, Bool.not_eq_true', Bool.or_eq_false_iff] at hp
  obtain ⟨-, hp1, hp2⟩ := hp
  exact ⟨by simpa using hp1, hp2⟩

theorem pathJoin_ne_empty (a b : String) : pathJoin a b ≠ "" := by
  intro h
  have h1 : (pathJoin a b).length = 0 := by rw [h]; rfl
  have h2 : (pathJoin a b).length = a.length + ("/" : String).length + b.length := by
    simp [pathJoin, String.length_append]
  have h3 : ("/" : String).length = 1 := rfl
  omega

theorem firstExistingDir_eq_empty_iff (st : St) (src : String) (l : List String) :
    firstExistingDir st src l = "" ↔ ∀ d ∈ l, pathExistsB st (pathJoin src d) = false := by
  induction l with
  | nil => simp [firstExistingDir]
  | cons d rest ih =>
    cases h : pathExistsB st (pathJoin src d) with
    | true =>
      constructor
      · intro he
        exfalso
        apply pathJoin_ne_empty src d
        simpa [firstExistingDir, h] using he
      · intro hall
        exact absurd (hall d (List.mem_cons_self d rest)) (by simp [h])
    | false =>
      constructor
      · intro he d' hd'
        rcases List.mem_cons.mp hd' with rfl | hmem
        · exact h
        · exact (ih.mp (by simpa [firstExistingDir, h] using he)) d' hmem
      · intro hall
        have hrest : firstExistingDir st src rest = "" :=
          ih.mpr (fun d' hd' => hall d' (List.mem_cons_of_mem d hd'))
        simpa [firstExistingDir, h] using hrest

theorem firstExistingDir_first_wins (st : St) (src : String) :
    ∀ l₁ d l₂, (∀ d' ∈ l₁, pathExistsB st (pathJoin src d') = false) →
      pathExistsB st (pathJoin src d) = true →
      firstExistingDir st src (l₁ ++ d :: l₂) = pathJoin src d := by
  intro l₁
  induction l₁ with
  | nil => intro d l₂ _ hd; simp [firstExistingDir, hd]
  | cons a as ih =>
    intro d l₂ h1 hd
    have ha : pathExistsB st (pathJoin src a) = false := h1 a (by simp)
    simp only [List.cons_append, firstExistingDir, ha, Bool.false_eq_true, if_false]
    exact ih d l₂ (fun d' hm => h1 d' (by simp [hm])) hd

/-! Claim theorems. -/

/-- Claim C1, counterexample: in the backend service, batchUpgrade over
three configured modules whose second module's clone fails ends in a thrown
error instead of a list of three outcomes, and the third module's clone is
never attempted — a failure in one module does prevent subsequent modules
from being attempted. -/
theorem C1_batch_abort_counterexample :
    (batchUpgradeV1 envFailB mods3 none st0).isErr = true ∧
    FsOp.exec (cloneCmd "c") ∉ (batchUpgradeV1 envFailB mods3 none st0).st.trace := by
  decide

/-- Claim C1, amended: in the simplified part_003 service, batchUpgrade
returns exactly one outcome per selected configured module, in the
configured list's order, and a failure in one module does not prevent later
ones; in the concrete three-module run whose second module fails, the
outcomes are success, failure, success in order.  In the backend service
the loop instead aborts at the first thrown failure. -/
theorem C1_batch_order_p3 (env : Env) (mods : List ModuleConfig)
    (names : Option (List String)) (st : St) :
    ((batchUpgradeP3 env mods names st).1).map (fun r => r.module) =
      (selectModules mods names).map (fun m => m.name) ∧
    ((batchUpgradeP3 envFailB mods3 none st0).1).map (fun r => r.success) =
      [true, false, true] := by
  constructor
  · exact batchRunP3_map env mods (selectModules mods names) st
  · decide

/-- Claim C2, counterexample: in the backend service a failing build step
makes upgradeModule rethrow (after cleanup) rather than yield a
success=false result object. -/
theorem C2_throws_counterexample :
    (upgradeModuleV1 envFailBuildA [mA] "a" st0).isErr = true := by decide

/-- Claim C2, amended: in the part_003 service, upgradeModule of a
configured module always yields a result object: a pipeline failure with
error e yields success=false and a message naming the failure, and a
pipeline success yields the pipeline's record, carrying success=true, the
resolved version and the success message.  In the backend service the same
failure is rethrown instead. -/
theorem C2_result_object_p3 (env : Env) (mods : List ModuleConfig) (name : String)
    (m : ModuleConfig) (st : St)
    (hfind : mods.find? (fun mc => mc.name == name) = some m) :
    (∀ e st', pipelineBody env m (pathJoin "/tmp/upgrade" name) st = .err e st' →
      (upgradeModuleP3 env mods name st).1 =
        { success := false, module := name, message := s!"升级失败: {e}",
          timestamp := env.now, version := none }) ∧
    (∀ r st', pipelineBody env m (pathJoin "/tmp/upgrade" name) st = .ok r st' →
      (upgradeModuleP3 env mods name st).1 = r ∧ r.success = true ∧
      ∃ v, r.version = some v ∧ r.message = s!"升级成功，版本: {v}") := by
  constructor
  · intro e st' hp
    simp [upgradeModuleP3, hfind, hp]
  · intro r st' hp
    obtain ⟨v, hv⟩ := pipelineBody_ok_shape hp
    refine ⟨by simp [upgradeModuleP3, hfind, hp], by simp [hv], v, by simp [hv], by simp [hv]⟩

/-- Claim C2, witness: the amended statement instantiated at the fixture in
which module a's build fails. -/
theorem C2_result_object_p3_witness :
    ([mA].find? (fun mc => mc.name == "a") = some mA) ∧
    ((∀ e st', pipelineBody envFailBuildA mA (pathJoin "/tmp/upgrade" "a") st0 = .err e st' →
      (upgradeModuleP3 envFailBuildA [mA] "a" st0).1 =
        { success := false, module := "a", message := s!"升级失败: {e}",
          timestamp := envFailBuildA.now, version := none }) ∧
    (∀ r st', pipelineBody envFailBuildA mA (pathJoin "/tmp/upgrade" "a") st0 = .ok r st' →
      (upgradeModuleP3 envFailBuildA [mA] "a" st0).1 = r ∧ r.success = true ∧
      ∃ v, r.version = some v ∧ r.message = s!"升级成功，版本: {v}")) :=
  ⟨by decide, C2_result_object_p3 envFailBuildA [mA] "a" mA st0 (by decide)⟩

/-- Claim C3, counterexample: in the backend service, a manifest
parse failure for one configured module makes getModulesStatus rethrow,
aborting the whole status call instead of returning one entry per
configured module. -/
theorem C3_status_abort_counterexample :
    (getModulesStatusV1 envC3 [mA] stC3).isErr = true := by decide

/-- Claim C3, amended: in the part_003 service, getModulesStatus returns
one entry per configured module in configuration order, and a module whose
resolution throws contributes a per-module error entry whose versions are
the sentinel unknown and whose status is error.  The backend service
instead aborts the whole call. -/
theorem C3_status_per_module_p3 (env : Env) (mods : List ModuleConfig) (st : St)
    (m : ModuleConfig) (rest : List ModuleConfig) (e : String) (st' : St)
    (hfail : statusEntry env m st = .err e st') :
    ((getModulesStatusP3 env mods st).1).map (fun s => s.name) =
      mods.map (fun mc => mc.name) ∧
    (getModulesStatusP3 env (m :: rest) st).1 =
      errorEntry m e :: (getModulesStatusP3 env rest st').1 ∧
    (errorEntry m e).currentVersion = "unknown" ∧
    (errorEntry m e).latestVersion = "unknown" ∧
    (errorEntry m e).status = "error" := by
  refine ⟨getModulesStatusP3_map env mods st, ?_, rfl, rfl, rfl⟩
  simp [getModulesStatusP3, hfail]

/-- Claim C3, witness: the amended statement instantiated at the fixture
with an unreadable deployed manifest. -/
theorem C3_status_per_module_p3_witness :
    (statusEntry envC3 mA stC3 = .err "EACCES: parse failed" stC3x) ∧
    (((getModulesStatusP3 envC3 [mA] stC3).1).map (fun s => s.name) =
      [mA].map (fun mc => mc.name) ∧
    (getModulesStatusP3 envC3 (mA :: []) stC3).1 =
      errorEntry mA "EACCES: parse failed" :: (getModulesStatusP3 envC3 [] stC3x).1 ∧
    (errorEntry mA "EACCES: parse failed").currentVersion = "unknown" ∧
    (errorEntry mA "EACCES: parse failed").latestVersion = "unknown" ∧
    (errorEntry mA "EACCES: parse failed").status = "error") :=
  ⟨by decide, C3_status_per_module_p3 envC3 [mA] stC3 mA [] "EACCES: parse failed" stC3x (by decide)⟩

/-- Claim C4, code evaluated at the failing input: with the deploy path
present and the recursive copy failing, the node:fs backupCurrent swallows
the copy failure and reports success (its catch, commented as handling only
an absent deploy path, also catches the copy), while the fs-extra
backupCurrent propagates the failure as the claim requires. -/
theorem C4_backup_swallow_bug :
    (backupCurrentV2 envC4 "/srv/a" "a" stC4).isOk = true ∧
    (backupCurrentV1 envC4 "/srv/a" "a" stC4).isErr = true := by decide

/-- Claim C5, code evaluated at the failing input: with package.json
present and npm ci exiting non-zero, the node:fs npmInstall swallows the
install failure and reports success (its catch, commented as handling only
an absent manifest, also catches the install), while the fs-extra
npmInstall propagates the failure as the claim requires. -/
theorem C5_install_swallow_bug :
    (npmInstallV2 envC5 "/w" stC5).isOk = true ∧
    (npmInstallV1 envC5 "/w" stC5).isErr = true := by decide

/-- Claim C6: for every configured module, on every exit of the pipeline
(success or any failure) the workspace removal is attempted; when the
removal succeeds, neither the workspace directory nor anything under it
exists afterwards; and the reported outcome is exactly the pipeline body's
outcome — a removal failure never changes it. -/
theorem C6_cleanup_guarantee (env : Env) (mods : List ModuleConfig) (name : String)
    (m : ModuleConfig) (st : St)
    (hfind : mods.find? (fun mc => mc.name == name) = some m) :
    FsOp.rm (pathJoin "/tmp/upgrade" name) ∈ (upgradeModuleV1 env mods name st).st.trace ∧
    (env.rmFails (pathJoin "/tmp/upgrade" name) = none →
      ∀ p ∈ (upgradeModuleV1 env mods name st).st.fs,
        p ≠ pathJoin "/tmp/upgrade" name ∧ isUnder (pathJoin "/tmp/upgrade" name) p = false) ∧
    (upgradeModuleV1 env mods name st).out =
      (pipelineBody env m (pathJoin "/tmp/upgrade" name) st).out := by
  cases hp : pipelineBody env m (pathJoin "/tmp/upgrade" name) st with
  | ok r st' =>
    have hu : upgradeModuleV1 env mods name st =
        .ok r (cleanupTemp env (pathJoin "/tmp/upgrade" name) st') := by
      simp [upgradeModuleV1, hfind, hp]
    rw [hu]
    exact ⟨rm_mem_cleanupTemp env (pathJoin "/tmp/upgrade" name) st',
      fun hnone => cleanupTemp_fs env (pathJoin "/tmp/upgrade" name) st' hnone, rfl⟩
  | err e st' =>
    have hu : upgradeModuleV1 env mods name st =
        .err e (cleanupTemp env (pathJoin "/tmp/upgrade" name) st') := by
      simp [upgradeModuleV1, hfind, hp]
    rw [hu]
    exact ⟨rm_mem_cleanupTemp env (pathJoin "/tmp/upgrade" name) st',
      fun hnone => cleanupTemp_fs env (pathJoin "/tmp/upgrade" name) st' hnone, rfl⟩

/-- Claim C6, witness: the cleanup guarantee instantiated at the benign
fixture, for the configured module a. -/
theorem C6_cleanup_guarantee_witness :
    ([mA].find? (fun mc => mc.name == "a") = some mA) ∧
    (FsOp.rm (pathJoin "/tmp/upgrade" "a") ∈ (upgradeModuleV1 baseEnv [mA] "a" st0).st.trace ∧
    (baseEnv.rmFails (pathJoin "/tmp/upgrade" "a") = none →
      ∀ p ∈ (upgradeModuleV1 baseEnv [mA] "a" st0).st.fs,
        p ≠ pathJoin "/tmp/upgrade" "a" ∧ isUnder (pathJoin "/tmp/upgrade" "a") p = false) ∧
    (upgradeModuleV1 baseEnv [mA] "a" st0).out =
      (pipelineBody baseEnv mA (pathJoin "/tmp/upgrade" "a") st0).out) :=
  ⟨by decide, C6_cleanup_guarantee baseEnv [mA] "a" mA st0 (by decide)⟩

/-- Claim C7: an unknown module name short-circuits every service variant:
the call returns the unconfigured success=false result and the world state
is returned untouched — nothing recorded in the trace, no workspace
created, no cleanup performed. -/
theorem C7_unknown_module (env : Env) (mods : List ModuleConfig) (name : String) (st : St)
    (h : mods.find? (fun mc => mc.name == name) = none) :
    upgradeModuleV1 env mods name st = .ok (unconfiguredResult env name) st ∧
    upgradeModuleV2 env mods name st = .ok (unconfiguredResult env name) st ∧
    upgradeModuleP3 env mods name st = (unconfiguredResult env name, st) ∧
    (unconfiguredResult env name).success = false := by
  refine ⟨?_, ?_, ?_, rfl⟩ <;>
    simp [upgradeModuleV1, upgradeModuleV2, upgradeModuleP3, h]

/-- Claim C7, witness: the short-circuit instantiated at an unconfigured
name over the three-module fixture. -/
theorem C7_unknown_module_witness :
    (mods3.find? (fun mc => mc.name == "zzz") = none) ∧
    (upgradeModuleV1 baseEnv mods3 "zzz" st0 = .ok (unconfiguredResult baseEnv "zzz") st0 ∧
    upgradeModuleV2 baseEnv mods3 "zzz" st0 = .ok (unconfiguredResult baseEnv "zzz") st0 ∧
    upgradeModuleP3 baseEnv mods3 "zzz" st0 = (unconfiguredResult baseEnv "zzz", st0) ∧
    (unconfiguredResult baseEnv "zzz").success = false) :=
  ⟨by decide, C7_unknown_module baseEnv mods3 "zzz" st0 (by decide)⟩

/-- Claim C8: build-output discovery.  For a frontend or microfrontend
module the candidates dist, build, out, public are probed in that order and
the first existing one wins; when none exists the deploy step fails with
the output-not-found error.  For a backend module the output is the dist
subdirectory when it exists and otherwise the workspace root, which is
never empty, so the deploy step always proceeds to the swap. -/
theorem C8_output_discovery (env : Env) (st : St) (src tgt : String) (ty : ModuleType)
    (hsrc : src ≠ "") :
    ((ty = .frontend ∨ ty = .microfrontend) →
      ((findBuildOutput st src ty = "" ↔
         ∀ d ∈ frontendCandidates, pathExistsB st (pathJoin src d) = false) ∧
       (∀ l₁ d l₂, frontendCandidates = l₁ ++ d :: l₂ →
         (∀ d' ∈ l₁, pathExistsB st (pathJoin src d') = false) →
         pathExistsB st (pathJoin src d) = true →
         findBuildOutput st src ty = pathJoin src d) ∧
       (findBuildOutput st src ty = "" →
         deployBuildV1 env src tgt ty st = .err "未找到构建输出目录" st))) ∧
    (findBuildOutput st src .backend =
      (if pathExistsB st (pathJoin src "dist") then pathJoin src "dist" else src)) ∧
    (findBuildOutput st src .backend ≠ "") ∧
    (deployBuildV1 env src tgt .backend st =
      deployCopyV1 env (findBuildOutput st src .backend) tgt st) := by
  have hback : findBuildOutput st src .backend ≠ "" := by
    simp only [findBuildOutput]
    cases hd : pathExistsB st (pathJoin src "dist") with
    | true => simpa [hd] using pathJoin_ne_empty src "dist"
    | false => simpa [hd] using hsrc
  refine ⟨?_, rfl, hback, ?_⟩
  · intro hty
    have hfb : findBuildOutput st src ty = firstExistingDir st src frontendCandidates := by
      rcases hty with rfl | rfl <;> rfl
    refine ⟨?_, ?_, ?_⟩
    · rw [hfb]; exact firstExistingDir_eq_empty_iff st src frontendCandidates
    · intro l₁ d l₂ hcand h1 hd
      rw [hfb, hcand]
      exact firstExistingDir_first_wins st src l₁ d l₂ h1 hd
    · intro h0
      have hb : (findBuildOutput st src ty == "") = true := by
        rw [h0]; decide
      simp [deployBuildV1, hb]
  · have hb : (findBuildOutput st src .backend == "") = false := by
      cases hbe : findBuildOutput st src .backend == ""
      · rfl
      · exact absurd (eq_of_beq hbe) hback
    simp [deployBuildV1, hb]

/-- Claim C8, witness: discovery instantiated at a frontend module over a
world containing none of the candidates. -/
theorem C8_output_discovery_witness :
    (("w" : String) ≠ "") ∧
    (((ModuleType.frontend = .frontend ∨ ModuleType.frontend = .microfrontend) →
      ((findBuildOutput st0 "w" .frontend = "" ↔
         ∀ d ∈ frontendCandidates, pathExistsB st0 (pathJoin "w" d) = false) ∧
       (∀ l₁ d l₂, frontendCandidates = l₁ ++ d :: l₂ →
         (∀ d' ∈ l₁, pathExistsB st0 (pathJoin "w" d') = false) →
         pathExistsB st0 (pathJoin "w" d) = true →
         findBuildOutput st0 "w" .frontend = pathJoin "w" d) ∧
       (findBuildOutput st0 "w" .frontend = "" →
         deployBuildV1 baseEnv "w" "t" .frontend st0 = .err "未找到构建输出目录" st0))) ∧
    (findBuildOutput st0 "w" .backend =
      (if pathExistsB st0 (pathJoin "w" "dist") then pathJoin "w" "dist" else "w")) ∧
    (findBuildOutput st0 "w" .backend ≠ "") ∧
    (deployBuildV1 baseEnv "w" "t" .backend st0 =
      deployCopyV1 baseEnv (findBuildOutput st0 "w" .backend) "t" st0)) :=
  ⟨by decide, C8_output_discovery baseEnv st0 "w" "t" .frontend (by decide)⟩

/-- Claim C9, counterexample: with the manifest absent, getVersion returns
the trimmed git output verbatim; when git prints a twelve-character
revision id the result has length twelve, neither exactly seven characters
nor the literal unknown. -/
theorem C9_version_length_counterexample :
    (getVersionV1 envC9 "/w" st0).val? = some "abcdefgh1234" ∧
    ¬ (("abcdefgh1234" : String).length = 7 ∨ ("abcdefgh1234" : String) = "unknown") := by
  decide

/-- Claim C9, amended: with the manifest absent, getVersion returns the
trimmed output of the git describe-or-rev-parse query, whatever its length
(seven characters only under git's default abbreviation), or the literal
unknown when the query fails; it is total and never throws, whatever the
state. -/
theorem C9_version_fallback (env : Env) (dir : String) (st : St)
    (habs : pathExistsB st (pathJoin dir "package.json") = false) :
    (∀ e, env.exec (gitVersionCmd dir) = .error e →
      (getVersionV1 env dir st).val? = some "unknown") ∧
    (∀ out, env.exec (gitVersionCmd dir) = .ok out →
      (getVersionV1 env dir st).val? = some (trimS out)) ∧
    (∀ st2 : St, (getVersionV1 env dir st2).isOk = true) := by
  refine ⟨?_, ?_, ?_⟩
  · intro e he
    simp [getVersionV1, habs, execE, record, he, Res.val?]
  · intro out ho
    simp [getVersionV1, habs, execE, record, ho, Res.val?]
  · intro st2
    simp only [getVersionV1]
    split
    · split <;> simp [Res.isOk]
    · split <;> simp [Res.isOk]

/-- Claim C9, witness: the fallback behavior instantiated at the fixture
whose git query prints a twelve-character id. -/
theorem C9_version_fallback_witness :
    (pathExistsB st0 (pathJoin "/w" "package.json") = false) ∧
    ((∀ e, envC9.exec (gitVersionCmd "/w") = .error e →
      (getVersionV1 envC9 "/w" st0).val? = some "unknown") ∧
    (∀ out, envC9.exec (gitVersionCmd "/w") = .ok out →
      (getVersionV1 envC9 "/w" st0).val? = some (trimS out)) ∧
    (∀ st2 : St, (getVersionV1 envC9 "/w" st2).isOk = true)) :=
  ⟨by decide, C9_version_fallback envC9 "/w" st0 (by decide)⟩

/-- Claim C10: in the part_003 service, batchUpgrade iterates the
configured list filtered by the requested names, so a requested name that
matches no configured module contributes no outcome at all (the result can
be shorter than the request), duplicates in the request cannot produce more
than one outcome per configured module, and — in contrast — upgradeModule
on the same unknown name returns an explicit success=false outcome. -/
theorem C10_batch_skips_unknown (env : Env) (mods : List ModuleConfig) (names : List String)
    (st : St) (x : String) (hx : ∀ m ∈ mods, m.name ≠ x) :
    (((batchUpgradeP3 env mods (some names) st).1).map (fun r => r.module) =
      (mods.filter (fun m => names.contains m.name)).map (fun m => m.name)) ∧
    (∀ r ∈ (batchUpgradeP3 env mods (some names) st).1, r.module ≠ x) ∧
    ((batchUpgradeP3 env mods (some names) st).1.length ≤ mods.length) ∧
    (((upgradeModuleP3 env mods x st).1).success = false) := by
  have hmap : ((batchUpgradeP3 env mods (some names) st).1).map (fun r => r.module) =
      (mods.filter (fun m => names.contains m.name)).map (fun m => m.name) :=
    batchRunP3_map env mods (mods.filter (fun m => names.contains m.name)) st
  refine ⟨hmap, ?_, ?_, ?_⟩
  · intro r hr
    have h1 : r.module ∈ ((batchUpgradeP3 env mods (some names) st).1).map (fun r => r.module) :=
      List.mem_map_of_mem _ hr
    rw [hmap] at h1
    obtain ⟨mc, hmc, hme⟩ := List.mem_map.mp h1
    rw [← hme]
    exact hx mc (List.mem_of_mem_filter hmc)
  · have h2 := congrArg List.length hmap
    simp only [List.length_map] at h2
    rw [h2]
    exact List.length_filter_le _ mods
  · have hf : mods.find? (fun mc => mc.name == x) = none := by
      rw [List.find?_eq_none]
      intro mc hmc
      simp only [beq_iff_eq]
      exact hx mc hmc
    simp [upgradeModuleP3, hf, unconfiguredResult]

/-- Claim C10, witness: instantiated at the three-module fixture and the
unconfigured name zzz. -/
theorem C10_batch_skips_unknown_witness :
    (∀ m ∈ mods3, m.name ≠ "zzz") ∧
    ((((batchUpgradeP3 baseEnv mods3 (some ["a", "zzz", "a"]) st0).1).map (fun r => r.module) =
      (mods3.filter (fun m => ["a", "zzz", "a"].contains m.name)).map (fun m => m.name)) ∧
    (∀ r ∈ (batchUpgradeP3 baseEnv mods3 (some ["a", "zzz", "a"]) st0).1, r.module ≠ "zzz") ∧
    ((batchUpgradeP3 baseEnv mods3 (some ["a", "zzz", "a"]) st0).1.length ≤ mods3.length) ∧
    (((upgradeModuleP3 baseEnv mods3 "zzz" st0).1).success = false)) :=
  ⟨by decide, C10_batch_skips_unknown baseEnv mods3 ["a", "zzz", "a"] st0 "zzz" (by decide)⟩

end HisAutoUpgrade
